import Mathlib

/-!
Shallow embedding of the scheduler runtime of the `scale` repository:
the running-job-execution state machine (`job_exe.py`), the job-execution
task base class (`exe_task.py`) and the database sync loop (`db_sync.py`).
Python objects become Lean structures; mutation becomes explicit state
passing; durable (database / cluster-driver) operations become an explicit
trace of `Effect` values.  Parts of the repository that are only declared
or called from the embedded files (the `base_task.py` Task base class, the
Pre/Job/Post task variant constructors, the Django model layer) are
modelled from the specification and marked as such in their doc comments.
-/

namespace Scale

/-- The task status carried by a status update (`TaskStatusUpdate` constants
in `tasks/update.py`, which is referenced from `job_exe.py`). -/
inductive TaskStatus where
  | running
  | finished
  | failed
  | killed
  | lost
  deriving DecidableEq, Repr

/-- A task status update delivered from the cluster manager: task id, status,
timestamp, exit code and reason. -/
structure TaskStatusUpdate where
  task_id : String
  status : TaskStatus
  timestamp : Nat
  exit_code : Option Int := none
  reason : Option String := none
  deriving DecidableEq, Repr

/-- The variant tag of a job-execution task (pre-task, job-task, post-task). -/
inductive TaskKind where
  | pre
  | job
  | post
  deriving DecidableEq, Repr

/-- The mutable in-memory fields of a task.  Mirrors the base `Task` state
(`has_started`, `started`, `has_ended`, `ended`, `exit_code`,
`last_status_update`, uses-docker flag) plus the identifying fields set by
the constructors.  The cached scheduled-resource floats of
`JobExecutionTask.__init__` are not modelled (no claim depends on them). -/
structure TaskFields where
  kind : TaskKind
  task_id : String
  task_name : String
  agent_id : String
  job_exe_id : Nat
  uses_docker : Bool
  has_started : Bool
  started : Option Nat
  has_ended : Bool
  ended : Option Nat
  exit_code : Option Int
  last_status_update : Option Nat
  deriving DecidableEq, Repr

/-- An error of the error catalog: a name (builtin code such as
`node-lost`) and a category (such as `SYSTEM`). -/
structure Error where
  name : String
  category : String
  deriving DecidableEq, Repr

/-- Modelled from the spec: the `ErrorCatalog` interface (`error/models.py`
is not part of the embedded sources).  `get_builtin_error` returns the
builtin error with the given code and `get_unknown_error` returns the
builtin `unknown` error. -/
structure ErrorCatalog where
  get_builtin_error : String → Error
  get_unknown_error : Error

/-- The job type model fields read by `JobExecutionTask.__init__`. -/
structure JobTypeModel where
  title : String
  version : String
  deriving DecidableEq, Repr

/-- The job model fields read by `RunningJobExecution` and `_task_fail`. -/
structure JobModel where
  job_type_id : Nat
  num_exes : Nat
  max_tries : Nat
  job_type : JobTypeModel
  deriving DecidableEq, Repr

/-- The node model fields read by the embedded code: `slave_id` for task
construction, and the pause fields written by the quarantine policy. -/
structure NodeModel where
  hostname : String
  slave_id : String
  is_paused : Bool
  is_paused_errors : Bool
  pause_reason : Option String
  deriving DecidableEq, Repr

/-- The durable job-execution row fields read by `RunningJobExecution`
construction and by `_task_fail`: id, node, job, `is_system`, and the
optional `docker_volumes` attribute (guarded by `hasattr` in the source). -/
structure JobExecutionModel where
  id : Nat
  node_id : Option Nat
  node : Option NodeModel
  job : JobModel
  is_system : Bool
  docker_volumes : Option (List String)
  deriving DecidableEq, Repr

/-- The scheduler settings read by the quarantine policy in `_task_fail`:
`node_error_period` (minutes, non-positive disables the policy) and
`max_node_errors`. -/
structure SchedulerModel where
  node_error_period : Int
  max_node_errors : Nat
  deriving DecidableEq, Repr

/-- Modelled from the spec: the base `Task` constructor (`base_task.py` is
not part of the embedded sources).  A freshly constructed task has not
started and not ended and carries no timestamps. -/
def Task.mkBase (kind : TaskKind) (task_id task_name agent_id : String)
    (job_exe_id : Nat) (uses_docker : Bool) : TaskFields :=
  { kind := kind
    task_id := task_id
    task_name := task_name
    agent_id := agent_id
    job_exe_id := job_exe_id
    uses_docker := uses_docker
    has_started := false
    started := none
    has_ended := false
    ended := none
    exit_code := none
    last_status_update := none }

/-- The task name computed by `JobExecutionTask.__init__`: the job type
title and version, with a `Scale` namespace for non-system jobs. -/
def JobExecutionTask.mkName (job_exe : JobExecutionModel) : String :=
  let n := job_exe.job.job_type.title ++ " " ++ job_exe.job.job_type.version
  if job_exe.is_system then n else "Scale " ++ n

/-- The agent id read from the populated node of the job execution row
(`job_exe.node.slave_id` in `JobExecutionTask.__init__`; the constructor
requires the node model to be populated). -/
def JobExecutionTask.agentOf (job_exe : JobExecutionModel) : String :=
  match job_exe.node with
  | some n => n.slave_id
  | none => ""

/-- Modelled from the spec: the `PreTask` constructor (`pre_task.py` is not
part of the embedded sources).  Task ids use the documented
kind-identifying `scale_pre` id start; the tasks of one execution have
pairwise distinct ids.  Pre/job/post tasks are containerized steps. -/
def mkPreTask (job_exe : JobExecutionModel) : TaskFields :=
  Task.mkBase TaskKind.pre ("scale_pre_" ++ toString job_exe.id)
    (JobExecutionTask.mkName job_exe) (JobExecutionTask.agentOf job_exe) job_exe.id true

/-- Modelled from the spec: the `JobTask` constructor (`job_task.py` is not
part of the embedded sources); id start `scale_job` as in
`JOB_TASK_ID_PREFIX` of `exe_task.py`. -/
def mkJobTask (job_exe : JobExecutionModel) : TaskFields :=
  Task.mkBase TaskKind.job ("scale_job_" ++ toString job_exe.id)
    (JobExecutionTask.mkName job_exe) (JobExecutionTask.agentOf job_exe) job_exe.id true

/-- Modelled from the spec: the `PostTask` constructor (`post_task.py` is
not part of the embedded sources); id start `scale_post`. -/
def mkPostTask (job_exe : JobExecutionModel) : TaskFields :=
  Task.mkBase TaskKind.post ("scale_post_" ++ toString job_exe.id)
    (JobExecutionTask.mkName job_exe) (JobExecutionTask.agentOf job_exe) job_exe.id true

/-- Modelled from the spec: `Task.update` (`base_task.py` is not part of the
embedded sources).  Per the spec, `update` applies the non-terminal RUNNING
transition, setting `has_started`, `started` and `last_status_update`, and
is idempotent on repeated RUNNING updates with the same id; an update with
a non-matching id does nothing; a matching non-RUNNING update records the
status-update timestamp. -/
def Task.update (t : TaskFields) (u : TaskStatusUpdate) : TaskFields :=
  if u.task_id = t.task_id then
    if u.status = TaskStatus.running then
      { t with has_started := true, started := some u.timestamp,
               last_status_update := some u.timestamp }
    else
      { t with last_status_update := some u.timestamp }
  else t

/-- `JobExecutionTask.complete` from `exe_task.py`: on a task-id mismatch it
returns early (Python `return` with no value, modelled as `none`); on a
match it sets `has_ended`, `ended`, `exit_code` and `last_status_update`
and returns `False` (modelled as `some false`). -/
def JobExecutionTask.complete (t : TaskFields) (u : TaskStatusUpdate) :
    TaskFields × Option Bool :=
  if t.task_id ≠ u.task_id then (t, none)
  else
    ({ t with has_ended := true
              ended := some u.timestamp
              exit_code := u.exit_code
              last_status_update := some u.timestamp }, some false)

/-- `JobExecutionTask._consider_general_error` from `exe_task.py`: if the
task never started, a launch error (docker or not); if it started and the
executor was terminated on a containerized task, `docker-terminated`;
otherwise no error. -/
def JobExecutionTask.consider_general_error (cat : ErrorCatalog)
    (t : TaskFields) (u : TaskStatusUpdate) : Option Error :=
  if t.has_started = false then
    if t.uses_docker then some (cat.get_builtin_error "docker-task-launch")
    else some (cat.get_builtin_error "task-launch")
  else if u.reason = some "REASON_EXECUTOR_TERMINATED" ∧ t.uses_docker then
    some (cat.get_builtin_error "docker-terminated")
  else none

/-- Modelled from the spec: `determine_error` is abstract in `exe_task.py`
and the pre/job/post variant overrides are not part of the embedded
sources.  The spec gives exactly the fallback classification, which is
`_consider_general_error` of `exe_task.py`; the classification may return
no error, in which case the caller substitutes `unknown`. -/
def JobExecutionTask.determine_error (cat : ErrorCatalog)
    (t : TaskFields) (u : TaskStatusUpdate) : Option Error :=
  JobExecutionTask.consider_general_error cat t u

/-- A durable or outward effect performed by the embedded code: store writes
(`JobExecution` save during cancellation, `Queue.objects.handle_job_failure`
and `handle_job_completion`, the node pause write), the durable re-read of
the job-execution row in the refresh branch of `_task_complete`, the
cluster-driver kill, and the registry/cleanup hand-off of the sync loop. -/
inductive Effect where
  | saveJobExe (exe_id : Nat) (tasks : List TaskFields)
  | handleJobFailure (exe_id : Nat) (when : Nat) (tasks : List TaskFields) (error : Option Error)
  | handleJobCompletion (exe_id : Nat) (when : Nat) (tasks : List TaskFields)
  | readJobExe (exe_id : Nat)
  | saveNode (node : NodeModel)
  | killTask (task_id : String)
  | removeJobExe (exe_id : Nat)
  | addToCleanup (exe_id : Nat)
  deriving DecidableEq, Repr

/-- The database state consulted by `_task_complete` and `_task_fail`: the
error catalog, the current wall time (`now()`), the job-execution row
re-read with job and node (`get_job_exe_with_job_and_job_type`), the
scheduler settings row (`Scheduler.objects.first()`), and the result of the
recent-system-failure count query of the quarantine policy (the number of
distinct jobs with status FAILED, a SYSTEM-category error and an end time
within the error period on the node of this execution). -/
structure DbState where
  catalog : ErrorCatalog
  now : Nat
  job_exe : JobExecutionModel
  scheduler : SchedulerModel
  num_node_errors : Nat

/-- The in-memory state of a `RunningJobExecution` from `job_exe.py`.  In
Python the current task is the same object as its entry in `_all_tasks`;
here `current_task` holds the task value and every mutation of it is
written back to `all_tasks` by task id (`replaceTask`), which models the
aliasing faithfully because the tasks of one execution have pairwise
distinct ids. -/
structure RunningJobExecution where
  id : Nat
  job_type_id : Nat
  node_id : Option Nat
  docker_volumes : List String
  all_tasks : List TaskFields
  current_task : Option TaskFields
  remaining_tasks : List TaskFields
  deriving DecidableEq, Repr

/-- Writes a mutated task back into a task list at its id, modelling the
Python object aliasing between `_current_task` and `_all_tasks`. -/
def replaceTask (tasks : List TaskFields) (t : TaskFields) : List TaskFields :=
  tasks.map fun x => if x.task_id = t.task_id then t else x

/-- `RunningJobExecution.__init__` from `job_exe.py`: caches id, job type
id, node id and docker volumes (empty when the attribute is absent), builds
the task list (pre and post only for non-system jobs, job task always), and
copies it into the remaining queue with no current task. -/
def RunningJobExecution.init (job_exe : JobExecutionModel) : RunningJobExecution :=
  let tasks :=
    (if job_exe.is_system then [] else [mkPreTask job_exe])
      ++ [mkJobTask job_exe]
      ++ (if job_exe.is_system then [] else [mkPostTask job_exe])
  { id := job_exe.id
    job_type_id := job_exe.job.job_type_id
    node_id := job_exe.node_id
    docker_volumes := job_exe.docker_volumes.getD []
    all_tasks := tasks
    current_task := none
    remaining_tasks := tasks }

/-- `is_finished` from `job_exe.py`: no current task and no remaining tasks. -/
def RunningJobExecution.is_finished (s : RunningJobExecution) : Bool :=
  s.current_task.isNone && s.remaining_tasks.isEmpty

/-- `is_next_task_ready` from `job_exe.py`: no current task and a non-empty
remaining queue. -/
def RunningJobExecution.is_next_task_ready (s : RunningJobExecution) : Bool :=
  s.current_task.isNone && !s.remaining_tasks.isEmpty

/-- `start_next_task` from `job_exe.py`: pops the head of the remaining
queue into the current task slot only when no task is current and the queue
is non-empty; returns the started task, or `none`. -/
def RunningJobExecution.start_next_task (s : RunningJobExecution) :
    RunningJobExecution × Option TaskFields :=
  match s.current_task with
  | some _ => (s, none)
  | none =>
    match s.remaining_tasks with
    | [] => (s, none)
    | t :: rest => ({ s with current_task := some t, remaining_tasks := rest }, some t)

/-- `execution_canceled` from `job_exe.py`: checkpoints every task into the
locked durable row and saves it, then clears the current task and the
remaining queue, returning the previously current task. -/
def RunningJobExecution.execution_canceled (s : RunningJobExecution) :
    RunningJobExecution × Option TaskFields × List Effect :=
  ({ s with current_task := none, remaining_tasks := [] },
   s.current_task,
   [Effect.saveJobExe s.id s.all_tasks])

/-- `execution_lost` from `job_exe.py`: records a whole-execution failure
with the builtin `node-lost` error and all tasks, then clears the current
task and the remaining queue, returning the previously current task. -/
def RunningJobExecution.execution_lost (cat : ErrorCatalog)
    (s : RunningJobExecution) (when : Nat) :
    RunningJobExecution × Option TaskFields × List Effect :=
  let error := cat.get_builtin_error "node-lost"
  ({ s with current_task := none, remaining_tasks := [] },
   s.current_task,
   [Effect.handleJobFailure s.id when s.all_tasks (some error)])

/-- `execution_timed_out` from `job_exe.py`: records a whole-execution
failure with the builtin `timeout` error and all tasks, then clears the
current task and the remaining queue, returning the previously current
task. -/
def RunningJobExecution.execution_timed_out (cat : ErrorCatalog)
    (s : RunningJobExecution) (when : Nat) :
    RunningJobExecution × Option TaskFields × List Effect :=
  let error := cat.get_builtin_error "timeout"
  ({ s with current_task := none, remaining_tasks := [] },
   s.current_task,
   [Effect.handleJobFailure s.id when s.all_tasks (some error)])

/-- `_task_start` from `job_exe.py`: when the update matches the current
task, apply `update` to it; otherwise do nothing. -/
def RunningJobExecution.task_start (s : RunningJobExecution)
    (u : TaskStatusUpdate) : RunningJobExecution × List Effect :=
  match s.current_task with
  | none => (s, [])
  | some ct =>
    if ct.task_id ≠ u.task_id then (s, [])
    else
      let ct1 := Task.update ct u
      ({ s with all_tasks := replaceTask s.all_tasks ct1, current_task := some ct1 }, [])

/-- `_task_complete` from `job_exe.py`: snapshot the current task and the
remaining queue; drop the update unless it matches the current task; call
`complete` on the current task; when it asks for a refresh and tasks
remain, re-read the durable row and refresh each remaining task (the base
refresh is a no-op); when no tasks remain, report completion with all
tasks; finally clear the current task if it still matches the update. -/
def RunningJobExecution.task_complete (db : DbState) (s : RunningJobExecution)
    (u : TaskStatusUpdate) : RunningJobExecution × List Effect :=
  let remaining_tasks := s.remaining_tasks
  match s.current_task with
  | none => (s, [])
  | some ct =>
    if ct.task_id ≠ u.task_id then (s, [])
    else
      let cr := JobExecutionTask.complete ct u
      let ct1 := cr.1
      let need_refresh := cr.2
      let all1 := replaceTask s.all_tasks ct1
      let refreshEffs :=
        if need_refresh = some true ∧ remaining_tasks ≠ [] then [Effect.readJobExe s.id] else []
      let doneEffs :=
        if remaining_tasks = [] then [Effect.handleJobCompletion s.id db.now all1] else []
      let s1 := { s with all_tasks := all1, current_task := some ct1 }
      let s2 :=
        match s1.current_task with
        | some c2 => if c2.task_id = u.task_id then { s1 with current_task := none } else s1
        | none => s1
      (s2, refreshEffs ++ doneEffs)

/-- `_task_fail` from `job_exe.py`: drop the update unless it matches the
current task; apply `update` to the current task; classify the error with
`determine_error`; record the whole-execution failure with all tasks and
that (possibly absent) error; substitute the builtin unknown error when
classification yielded none; run the quarantine policy (pause the node when
the error is SYSTEM-category, the job has exhausted its tries, the node
exists and is not paused, the error period is positive and the recent
system-failure count reaches the threshold); finally clear the current task
and the remaining queue. -/
def RunningJobExecution.task_fail (db : DbState) (s : RunningJobExecution)
    (u : TaskStatusUpdate) : RunningJobExecution × List Effect :=
  match s.current_task with
  | none => (s, [])
  | some ct =>
    if ct.task_id ≠ u.task_id then (s, [])
    else
      let ct1 := Task.update ct u
      let all1 := replaceTask s.all_tasks ct1
      let error := JobExecutionTask.determine_error db.catalog ct1 u
      let failEff := Effect.handleJobFailure s.id db.now all1 error
      let error1 := error.getD db.catalog.get_unknown_error
      let nodeEffs :=
        match db.job_exe.node with
        | none => []
        | some node =>
          if error1.category = "SYSTEM" ∧ db.job_exe.job.num_exes ≥ db.job_exe.job.max_tries
              ∧ node.is_paused = false then
            if db.scheduler.node_error_period > 0 then
              if db.num_node_errors ≥ db.scheduler.max_node_errors then
                [Effect.saveNode { node with is_paused := true
                                             is_paused_errors := true
                                             pause_reason := some "System Failure Rate Too High" }]
              else []
            else []
          else []
      ({ s with all_tasks := all1, current_task := none, remaining_tasks := [] },
       failEff :: nodeEffs)

/-- `_task_lost` from `job_exe.py`: drop the update unless it matches the
current task; apply `update` to the current task; re-insert the current
task at the head of the remaining queue and clear the current slot;
performs no durable operation. -/
def RunningJobExecution.task_lost (s : RunningJobExecution)
    (u : TaskStatusUpdate) : RunningJobExecution × List Effect :=
  match s.current_task with
  | none => (s, [])
  | some ct =>
    if ct.task_id ≠ u.task_id then (s, [])
    else
      let ct1 := Task.update ct u
      ({ s with all_tasks := replaceTask s.all_tasks ct1
                current_task := none
                remaining_tasks := ct1 :: s.remaining_tasks }, [])

/-- `task_update` from `job_exe.py`: dispatch on the update status to the
private handlers. -/
def RunningJobExecution.task_update (db : DbState) (s : RunningJobExecution)
    (u : TaskStatusUpdate) : RunningJobExecution × List Effect :=
  match u.status with
  | TaskStatus.running => s.task_start u
  | TaskStatus.finished => s.task_complete db u
  | TaskStatus.lost => s.task_lost u
  | TaskStatus.failed => s.task_fail db u
  | TaskStatus.killed => s.task_fail db u

/-- The durable row fields read per execution by the sync loop: the status
string, and the result of `JobExecution.is_timed_out(now)`, which is
modelled from the spec as an abstract boolean because the `JobExecution`
model class is not part of the embedded sources. -/
structure SyncRow where
  status : String
  timed_out : Bool
  deriving DecidableEq, Repr

/-- The environment of one sync tick: the error catalog, the tick wall time
(`right_now`), the durable rows keyed by execution id (the rows returned by
the `id__in` filter), and whether the durable cancel/timeout operation for
a given execution raises a `DatabaseError` (after exhausting retries). -/
structure SyncEnv where
  catalog : ErrorCatalog
  right_now : Nat
  row : Nat → Option SyncRow
  db_error : Nat → Bool

/-- The per-execution body of `_sync_running_job_executions` from
`db_sync.py`: for an execution whose id has a durable row, cancel on a
CANCELED status, else time out on a timed-out row (a `DatabaseError` from
either call is logged and leaves the execution untouched); when the call
returned a task, kill it; when the execution is then finished, remove it
from the registry (`none` result) and hand it to the cleanup manager. -/
def syncOne (env : SyncEnv) (s : RunningJobExecution) :
    Option RunningJobExecution × List Effect :=
  match env.row s.id with
  | none => (some s, [])
  | some row =>
    let step : RunningJobExecution × Option TaskFields × List Effect :=
      if row.status = "CANCELED" then
        if env.db_error s.id then (s, none, []) else s.execution_canceled
      else if row.timed_out then
        if env.db_error s.id then (s, none, [])
        else s.execution_timed_out env.catalog env.right_now
      else (s, none, [])
    let killEffs :=
      match step.2.1 with
      | some t => [Effect.killTask t.task_id]
      | none => []
    if step.1.is_finished then
      (none, step.2.2 ++ killEffs ++ [Effect.removeJobExe step.1.id, Effect.addToCleanup step.1.id])
    else (some step.1, step.2.2 ++ killEffs)

/-- `_sync_running_job_executions` from `db_sync.py` over the snapshot of
the registry: apply `syncOne` to every registered execution, keeping the
executions that stay in the registry and concatenating the effects in
iteration order. -/
def sync_running_job_executions (env : SyncEnv) :
    List RunningJobExecution → List RunningJobExecution × List Effect
  | [] => ([], [])
  | s :: rest =>
    let r := syncOne env s
    let rr := sync_running_job_executions env rest
    ((match r.1 with
      | some s1 => s1 :: rr.1
      | none => rr.1), r.2 ++ rr.2)

/-- One call of a task-level mutator in a history: a (non-terminal) status
`update` or a terminal-success `complete`. -/
inductive TaskEvent where
  | upd (u : TaskStatusUpdate)
  | compl (u : TaskStatusUpdate)
  deriving DecidableEq, Repr

/-- Applies one task event to a task. -/
def applyEvent (t : TaskFields) : TaskEvent → TaskFields
  | TaskEvent.upd u => Task.update t u
  | TaskEvent.compl u => (JobExecutionTask.complete t u).1

/-- Applies a sequence of task events to a task, in order. -/
def applyEvents (t : TaskFields) : List TaskEvent → TaskFields
  | [] => t
  | e :: es => applyEvents (applyEvent t e) es

/-- Holds when, among the events whose update carries the given task id,
a RUNNING `update` occurs before any `complete` (or no matching `complete`
occurs at all). -/
def runningSeenFirst (tid : String) : List TaskEvent → Bool
  | [] => true
  | TaskEvent.upd u :: es =>
    if u.task_id = tid ∧ u.status = TaskStatus.running then true
    else runningSeenFirst tid es
  | TaskEvent.compl u :: es =>
    if u.task_id = tid then false else runningSeenFirst tid es

/-- The errors passed to `handle_job_failure` calls in an effect trace, in
order; an entry of `none` is a call whose error argument was null. -/
def handled_failure_errors (effs : List Effect) : List (Option Error) :=
  effs.filterMap fun e =>
    match e with
    | Effect.handleJobFailure _ _ _ err => some err
    | _ => none

/-! Concrete fixtures used by counterexamples and witnesses. -/

/-- A concrete error catalog: every builtin error carries its code, with
category SYSTEM (as the launch and termination builtins are). -/
def testCatalog : ErrorCatalog where
  get_builtin_error := fun n => { name := n, category := "SYSTEM" }
  get_unknown_error := { name := "unknown", category := "SYSTEM" }

/-- A concrete unpaused node. -/
def testNode : NodeModel :=
  { hostname := "host1", slave_id := "agent1", is_paused := false,
    is_paused_errors := false, pause_reason := none }

/-- A concrete non-system job execution row with its attempt budget
exhausted. -/
def testRow : JobExecutionModel :=
  { id := 7, node_id := some 3, node := some testNode,
    job := { job_type_id := 2, num_exes := 3, max_tries := 3,
             job_type := { title := "T", version := "1.0" } },
    is_system := false, docker_volumes := some ["vol1"] }

/-- The running execution built from the concrete row. -/
def testExe : RunningJobExecution := RunningJobExecution.init testRow

/-- A concrete database state in which the quarantine thresholds are met. -/
def testDb : DbState :=
  { catalog := testCatalog, now := 100, job_exe := testRow,
    scheduler := { node_error_period := 1, max_node_errors := 5 },
    num_node_errors := 5 }

/-- A RUNNING update for the pre-task of the concrete execution. -/
def preRunUpdate : TaskStatusUpdate :=
  { task_id := "scale_pre_7", status := TaskStatus.running, timestamp := 10 }

/-- The concrete execution after starting its first task and receiving the
RUNNING update for it: the pre-task is current and has started. -/
def startedExe : RunningJobExecution :=
  ((testExe.start_next_task).1.task_update testDb preRunUpdate).1

/-- A FAILED update for the started pre-task with an ordinary reason, so
that error classification yields no error. -/
def preFailUpdate : TaskStatusUpdate :=
  { task_id := "scale_pre_7", status := TaskStatus.failed, timestamp := 20,
    exit_code := some 1, reason := none }

/-- A FINISHED update for the started pre-task. -/
def preDoneUpdate : TaskStatusUpdate :=
  { task_id := "scale_pre_7", status := TaskStatus.finished, timestamp := 20,
    exit_code := some 0 }

/-- A LOST update for the started pre-task. -/
def preLostUpdate : TaskStatusUpdate :=
  { task_id := "scale_pre_7", status := TaskStatus.lost, timestamp := 20 }

/-- An update whose task id matches no task of the concrete execution. -/
def strayUpdate : TaskStatusUpdate :=
  { task_id := "scale_job_99", status := TaskStatus.finished, timestamp := 30 }

/-! Helper lemmas about the task-level operations. -/

/-- `update` never changes the task id. -/
theorem Task.update_task_id (t : TaskFields) (u : TaskStatusUpdate) :
    (Task.update t u).task_id = t.task_id := by
  unfold Task.update
  split
  · split <;> rfl
  · rfl

/-- `update` never changes the ended flag. -/
theorem Task.update_has_ended (t : TaskFields) (u : TaskStatusUpdate) :
    (Task.update t u).has_ended = t.has_ended := by
  unfold Task.update
  split
  · split <;> rfl
  · rfl

/-- `update` never clears the started flag. -/
theorem Task.update_started_mono (t : TaskFields) (u : TaskStatusUpdate)
    (h : t.has_started = true) : (Task.update t u).has_started = true := by
  unfold Task.update
  split
  · split
    · rfl
    · exact h
  · exact h

/-- An `update` that is not a matching RUNNING update leaves the started
flag unchanged. -/
theorem Task.update_started_eq (t : TaskFields) (u : TaskStatusUpdate)
    (h : ¬(u.task_id = t.task_id ∧ u.status = TaskStatus.running)) :
    (Task.update t u).has_started = t.has_started := by
  unfold Task.update
  by_cases h1 : u.task_id = t.task_id
  · simp only [h1, if_true]
    have h2 : ¬ u.status = TaskStatus.running := fun h2 => h ⟨h1, h2⟩
    simp [h2]
  · simp [h1]

/-- `complete` never changes the task id. -/
theorem JobExecutionTask.complete_task_id (t : TaskFields) (u : TaskStatusUpdate) :
    ((JobExecutionTask.complete t u).1).task_id = t.task_id := by
  unfold JobExecutionTask.complete
  split <;> rfl

/-- `complete` never changes the started flag. -/
theorem JobExecutionTask.complete_has_started (t : TaskFields) (u : TaskStatusUpdate) :
    ((JobExecutionTask.complete t u).1).has_started = t.has_started := by
  unfold JobExecutionTask.complete
  split <;> rfl

/-- Once a task has started, no sequence of events clears the flag. -/
theorem applyEvents_started_mono (es : List TaskEvent) :
    ∀ t : TaskFields, t.has_started = true → (applyEvents t es).has_started = true := by
  induction es with
  | nil => intro t h; exact h
  | cons e es ih =>
    intro t h
    apply ih
    cases e with
    | upd u => exact Task.update_started_mono t u h
    | compl u =>
      show ((JobExecutionTask.complete t u).1).has_started = true
      rw [JobExecutionTask.complete_has_started]; exact h

/-- Events never change the task id. -/
theorem applyEvent_task_id (t : TaskFields) (e : TaskEvent) :
    (applyEvent t e).task_id = t.task_id := by
  cases e with
  | upd u => exact Task.update_task_id t u
  | compl u => exact JobExecutionTask.complete_task_id t u

/-! Claim theorems. -/

/-- C5: a status update whose task id does not match the current task (or
arriving when no task is current) is a no-op: the execution state, every
task in it, and the remaining queue are unchanged, and no durable effect is
performed. -/
theorem task_update_mismatch_noop (db : DbState) (s : RunningJobExecution)
    (u : TaskStatusUpdate)
    (h : s.current_task = none ∨
      ∃ ct, s.current_task = some ct ∧ ct.task_id ≠ u.task_id) :
    s.task_update db u = (s, []) := by
  rcases u with ⟨tid, st, ts, ec, rsn⟩
  rcases h with h | ⟨ct, hct, hne⟩
  · cases st <;>
      simp [RunningJobExecution.task_update, RunningJobExecution.task_start,
        RunningJobExecution.task_complete, RunningJobExecution.task_lost,
        RunningJobExecution.task_fail, h]
  · cases st <;>
      simp [RunningJobExecution.task_update, RunningJobExecution.task_start,
        RunningJobExecution.task_complete, RunningJobExecution.task_lost,
        RunningJobExecution.task_fail, hct, hne]

/-- Witness for C5: the stray FINISHED update leaves the started execution
and its effect trace untouched. -/
theorem task_update_mismatch_noop_witness :
    RunningJobExecution.task_update testDb startedExe strayUpdate = (startedExe, []) :=
  task_update_mismatch_noop testDb startedExe strayUpdate
    (Or.inr ⟨(startedExe.current_task).get (by decide), by decide, by decide⟩)

/-- C6: each of `execution_canceled`, `execution_lost` and
`execution_timed_out` clears the current task and the remaining queue
(leaving the execution finished), returns the task that was current
immediately before the clear, and a subsequent `start_next_task` returns
no task. -/
theorem terminal_ops_finish_execution (cat : ErrorCatalog)
    (s : RunningJobExecution) (when : Nat) :
    ((s.execution_canceled).1.current_task = none ∧
      (s.execution_canceled).1.remaining_tasks = [] ∧
      (s.execution_canceled).1.is_finished = true ∧
      (s.execution_canceled).2.1 = s.current_task ∧
      (s.execution_canceled).1.start_next_task = ((s.execution_canceled).1, none)) ∧
    ((s.execution_lost cat when).1.current_task = none ∧
      (s.execution_lost cat when).1.remaining_tasks = [] ∧
      (s.execution_lost cat when).1.is_finished = true ∧
      (s.execution_lost cat when).2.1 = s.current_task ∧
      (s.execution_lost cat when).1.start_next_task = ((s.execution_lost cat when).1, none)) ∧
    ((s.execution_timed_out cat when).1.current_task = none ∧
      (s.execution_timed_out cat when).1.remaining_tasks = [] ∧
      (s.execution_timed_out cat when).1.is_finished = true ∧
      (s.execution_timed_out cat when).2.1 = s.current_task ∧
      (s.execution_timed_out cat when).1.start_next_task =
        ((s.execution_timed_out cat when).1, none)) := by
  refine ⟨⟨rfl, rfl, rfl, rfl, rfl⟩, ⟨rfl, rfl, rfl, rfl, rfl⟩,
    ⟨rfl, rfl, rfl, rfl, rfl⟩⟩

/-- C8: construction from a job execution row yields the task list
[Pre, Job, Post] for a non-system job and [Job] for a system job, with the
remaining queue equal to the full task list and no current task. -/
theorem init_task_list (job_exe : JobExecutionModel) :
    (RunningJobExecution.init job_exe).all_tasks =
      (if job_exe.is_system then [mkJobTask job_exe]
       else [mkPreTask job_exe, mkJobTask job_exe, mkPostTask job_exe]) ∧
    (RunningJobExecution.init job_exe).remaining_tasks =
      (RunningJobExecution.init job_exe).all_tasks ∧
    (RunningJobExecution.init job_exe).current_task = none := by
  cases h : job_exe.is_system <;> simp [RunningJobExecution.init, h]

/-- C10: `complete` with a non-matching task id leaves the task unchanged
and returns no boolean at all (the Python early `return`, `none` here,
despite the declared `bool` result type); with a matching id it always
returns `False`. -/
theorem complete_mismatch_none_match_false (t : TaskFields) (u : TaskStatusUpdate) :
    (t.task_id ≠ u.task_id → JobExecutionTask.complete t u = (t, none)) ∧
    (t.task_id = u.task_id → (JobExecutionTask.complete t u).2 = some false) := by
  constructor
  · intro h; simp [JobExecutionTask.complete, h]
  · intro h; simp [JobExecutionTask.complete, h]

/-- Witness for C10: both branches at concrete tasks and updates. -/
theorem complete_mismatch_none_match_false_witness :
    JobExecutionTask.complete (mkJobTask testRow) strayUpdate = (mkJobTask testRow, none) ∧
    (JobExecutionTask.complete (mkPreTask testRow) preDoneUpdate).2 = some false :=
  ⟨(complete_mismatch_none_match_false (mkJobTask testRow) strayUpdate).1 (by decide),
   (complete_mismatch_none_match_false (mkPreTask testRow) preDoneUpdate).2 (by decide)⟩

/-- C2: a FINISHED update matching the current task applies `complete` to
it (which returns `False`, so the refresh branch never runs and the effect
trace holds no durable re-read), reports completion exactly once with the
execution id and all tasks when no tasks remain (and performs no durable
write otherwise), and clears the current task while leaving the remaining
queue unchanged. -/
theorem task_complete_matching (db : DbState) (s : RunningJobExecution)
    (u : TaskStatusUpdate) (ct : TaskFields)
    (h1 : s.current_task = some ct) (h2 : ct.task_id = u.task_id)
    (h3 : u.status = TaskStatus.finished) :
    (s.task_update db u).1.current_task = none ∧
    (s.task_update db u).1.all_tasks =
      replaceTask s.all_tasks (JobExecutionTask.complete ct u).1 ∧
    (s.task_update db u).1.remaining_tasks = s.remaining_tasks ∧
    (JobExecutionTask.complete ct u).2 = some false ∧
    (s.task_update db u).2 =
      (if s.remaining_tasks = [] then
        [Effect.handleJobCompletion s.id db.now
          (replaceTask s.all_tasks (JobExecutionTask.complete ct u).1)]
       else []) := by
  have hid : ((JobExecutionTask.complete ct u).1).task_id = u.task_id := by
    rw [JobExecutionTask.complete_task_id, h2]
  simp only [RunningJobExecution.task_update, h3]
  simp [RunningJobExecution.task_complete, h1, h2, hid, JobExecutionTask.complete]

/-- Witness for C2: completing the started pre-task clears the current
task, keeps the two remaining tasks, and performs no durable write yet. -/
theorem task_complete_matching_witness :
    (RunningJobExecution.task_update testDb startedExe preDoneUpdate).1.current_task = none ∧
    (RunningJobExecution.task_update testDb startedExe preDoneUpdate).2 = [] := by
  have h := task_complete_matching testDb startedExe preDoneUpdate
    ((startedExe.current_task).get (by decide)) (by decide) (by decide) rfl
  exact ⟨h.1, by rw [h.2.2.2.2]; decide⟩

/-- C7: a LOST update matching the current task applies `update` to it,
re-inserts it (same task id) at the head of the remaining queue, clears the
current slot and performs no durable operation; the next `start_next_task`
starts that same task again. -/
theorem task_lost_requeues_current (db : DbState) (s : RunningJobExecution)
    (u : TaskStatusUpdate) (ct : TaskFields)
    (h1 : s.current_task = some ct) (h2 : ct.task_id = u.task_id)
    (h3 : u.status = TaskStatus.lost) :
    (s.task_update db u).2 = [] ∧
    (s.task_update db u).1.current_task = none ∧
    (s.task_update db u).1.remaining_tasks = Task.update ct u :: s.remaining_tasks ∧
    (Task.update ct u).task_id = ct.task_id ∧
    ((s.task_update db u).1.start_next_task).2 = some (Task.update ct u) ∧
    ((s.task_update db u).1.start_next_task).1.current_task = some (Task.update ct u) ∧
    ((s.task_update db u).1.start_next_task).1.remaining_tasks = s.remaining_tasks := by
  simp only [RunningJobExecution.task_update, h3]
  simp [RunningJobExecution.task_lost, h1, h2, RunningJobExecution.start_next_task,
    Task.update_task_id]

/-- Witness for C7: losing the started pre-task re-queues it at the head
with no durable effect, and the next `start_next_task` returns it. -/
theorem task_lost_requeues_current_witness :
    (RunningJobExecution.task_update testDb startedExe preLostUpdate).2 = [] ∧
    (((RunningJobExecution.task_update testDb startedExe preLostUpdate).1.start_next_task).2).map
        (fun t => t.task_id) = some "scale_pre_7" := by
  have h := task_lost_requeues_current testDb startedExe preLostUpdate
    ((startedExe.current_task).get (by decide)) (by decide) (by decide) rfl
  exact ⟨h.1, by rw [h.2.2.2.2.1]; decide⟩

/-- C1 counterexample: at a concrete input (a started pre-task failing with
an ordinary reason, so that classification yields no error), the single
`handle_job_failure` call of the FAILED path carries a null error — not the
non-null fallback error the claim asserts. -/
theorem task_fail_error_argument_can_be_null :
    handled_failure_errors
      (RunningJobExecution.task_update testDb startedExe preFailUpdate).2 = [none] := by
  decide

/-- C1 (amended): a FAILED or KILLED update matching the current task
applies `update` to it, classifies the error with `determine_error`, calls
`handle_job_failure` first in the effect trace with all tasks and that
classification result — which may be null, the builtin unknown fallback
being applied only afterwards for the quarantine check — and clears both
the current task and the remaining queue, leaving the execution
finished. -/
theorem task_fail_records_and_clears (db : DbState) (s : RunningJobExecution)
    (u : TaskStatusUpdate) (ct : TaskFields)
    (h1 : s.current_task = some ct) (h2 : ct.task_id = u.task_id)
    (h3 : u.status = TaskStatus.failed ∨ u.status = TaskStatus.killed) :
    (s.task_update db u).1.current_task = none ∧
    (s.task_update db u).1.remaining_tasks = [] ∧
    (s.task_update db u).1.is_finished = true ∧
    (s.task_update db u).1.all_tasks = replaceTask s.all_tasks (Task.update ct u) ∧
    (s.task_update db u).2.head? =
      some (Effect.handleJobFailure s.id db.now
        (replaceTask s.all_tasks (Task.update ct u))
        (JobExecutionTask.determine_error db.catalog (Task.update ct u) u)) := by
  rcases h3 with h3 | h3 <;>
  · simp only [RunningJobExecution.task_update, h3]
    simp [RunningJobExecution.task_fail, h1, h2, RunningJobExecution.is_finished]

/-- Witness for C1 (amended): the concrete FAILED update clears the
execution and its first effect is the failure record with a null error. -/
theorem task_fail_records_and_clears_witness :
    (RunningJobExecution.task_update testDb startedExe preFailUpdate).1.is_finished = true ∧
    ((RunningJobExecution.task_update testDb startedExe preFailUpdate).2.head?).map
        (fun e =>
          match e with
          | Effect.handleJobFailure _ _ _ err => err.isNone
          | _ => false) = some true := by
  have h := task_fail_records_and_clears testDb startedExe preFailUpdate
    ((startedExe.current_task).get (by decide)) (by decide) (by decide) (Or.inl rfl)
  exact ⟨h.2.2.1, by rw [h.2.2.2.2]; decide⟩

/-- C3: on a matching FAILED or KILLED update, a node write appears in the
effect trace iff the classified error (after the unknown fallback) has
category SYSTEM, the job has exhausted its tries, the node exists and is
not already paused, the error period is positive, and the recent
system-failure count reaches the threshold; and the only node write ever
emitted is the pause write (paused, paused-for-errors, reason
"System Failure Rate Too High"). -/
theorem task_fail_quarantine_iff (db : DbState) (s : RunningJobExecution)
    (u : TaskStatusUpdate) (ct : TaskFields)
    (h1 : s.current_task = some ct) (h2 : ct.task_id = u.task_id)
    (h3 : u.status = TaskStatus.failed ∨ u.status = TaskStatus.killed) :
    ((∃ n, Effect.saveNode n ∈ (s.task_update db u).2) ↔
      (((JobExecutionTask.determine_error db.catalog (Task.update ct u) u).getD
          db.catalog.get_unknown_error).category = "SYSTEM" ∧
       db.job_exe.job.num_exes ≥ db.job_exe.job.max_tries ∧
       (∃ node, db.job_exe.node = some node ∧ node.is_paused = false) ∧
       db.scheduler.node_error_period > 0 ∧
       db.num_node_errors ≥ db.scheduler.max_node_errors)) ∧
    (∀ n, Effect.saveNode n ∈ (s.task_update db u).2 →
      ∃ node, db.job_exe.node = some node ∧
        n = { node with is_paused := true, is_paused_errors := true,
                        pause_reason := some "System Failure Rate Too High" }) := by
  rcases h3 with h3 | h3 <;>
  · simp only [RunningJobExecution.task_update, h3]
    simp only [RunningJobExecution.task_fail, h1, h2, ne_eq, not_true_eq_false,
      if_false, ite_false]
    rcases hn : db.job_exe.node with _ | node
    · simp [hn]
    · simp only [hn]
      by_cases hc : ((JobExecutionTask.determine_error db.catalog (Task.update ct u) u).getD
            db.catalog.get_unknown_error).category = "SYSTEM" ∧
          db.job_exe.job.num_exes ≥ db.job_exe.job.max_tries ∧ node.is_paused = false
      · by_cases hp : db.scheduler.node_error_period > 0
        · by_cases hm : db.num_node_errors ≥ db.scheduler.max_node_errors
          · simp [hc, hp, hm, hc.1, hc.2.1, hc.2.2]
          · simp [hc, hp, hm]
        · simp [hc, hp]
      · simp only [hc, if_false, ite_false]
        simp
        intro hcat hex hpau
        exact absurd ⟨hcat, hex, hpau⟩ hc

/-- Witness for C3: at the concrete input every quarantine condition holds
and the pause write for the concrete node is emitted. -/
theorem task_fail_quarantine_iff_witness :
    ∃ n, Effect.saveNode n ∈
      (RunningJobExecution.task_update testDb startedExe preFailUpdate).2 := by
  have h := task_fail_quarantine_iff testDb startedExe preFailUpdate
    ((startedExe.current_task).get (by decide)) (by decide) (by decide) (Or.inl rfl)
  exact h.1.mpr ⟨by decide, by decide, ⟨testNode, rfl, rfl⟩, by decide, by decide⟩

/-- The started-before-ended implication is preserved along any event
history in which, among the events carrying the task's own id, a RUNNING
update comes before any completion. -/
theorem runningSeenFirst_invariant (es : List TaskEvent) :
    ∀ t : TaskFields, (t.has_ended = true → t.has_started = true) →
      runningSeenFirst t.task_id es = true →
      ((applyEvents t es).has_ended = true → (applyEvents t es).has_started = true) := by
  induction es with
  | nil => exact fun t h0 _ => h0
  | cons e es ih =>
    intro t h0 h1
    cases e with
    | upd u =>
      by_cases hm : u.task_id = t.task_id ∧ u.status = TaskStatus.running
      · intro _
        exact applyEvents_started_mono es (Task.update t u)
          (by simp [Task.update, hm.1, hm.2])
      · have h1' : runningSeenFirst t.task_id es = true := by
          rw [runningSeenFirst] at h1
          simpa [hm] using h1
        have hrec := ih (Task.update t u)
          (by rw [Task.update_has_ended, Task.update_started_eq t u hm]; exact h0)
          (by rw [Task.update_task_id]; exact h1')
        exact hrec
    | compl u =>
      have hne : u.task_id ≠ t.task_id := by
        intro hEq
        rw [runningSeenFirst] at h1
        simp [hEq] at h1
      have h1' : runningSeenFirst t.task_id es = true := by
        rw [runningSeenFirst] at h1
        simpa [hne] using h1
      have hstate : (JobExecutionTask.complete t u).1 = t := by
        simp [JobExecutionTask.complete, Ne.symm hne]
      show ((applyEvents ((JobExecutionTask.complete t u).1) es).has_ended = true →
        (applyEvents ((JobExecutionTask.complete t u).1) es).has_started = true)
      rw [hstate]
      exact ih t h0 h1'

/-- A fresh job task on which `complete` is called directly. -/
def freshJobTask : TaskFields := mkJobTask testRow

/-- A RUNNING update for the fresh job task. -/
def jobRunUpdate : TaskStatusUpdate :=
  { task_id := "scale_job_7", status := TaskStatus.running, timestamp := 1 }

/-- A FINISHED update for the fresh job task. -/
def jobDoneUpdate : TaskStatusUpdate :=
  { task_id := "scale_job_7", status := TaskStatus.finished, timestamp := 5,
    exit_code := some 0 }

/-- C9 counterexample: calling `complete` with a matching update on a task
that never received a RUNNING update yields a task with `has_ended = true`
and `has_started = false`, so the claimed invariant fails after this
one-event sequence. -/
theorem completed_without_start :
    (applyEvents freshJobTask [TaskEvent.compl jobDoneUpdate]).has_ended = true ∧
    (applyEvents freshJobTask [TaskEvent.compl jobDoneUpdate]).has_started = false := by
  decide

/-- C9 (amended): for a task satisfying the started-before-ended
implication, any sequence of `update` and `complete` calls in which a
matching RUNNING update occurs before the first matching `complete` (or no
matching `complete` occurs) preserves `has_ended = true → has_started =
true`; a `complete` with a matching task id sets `has_ended`, `ended`,
`exit_code` and `last_status_update`; and repeating `complete` with the
same update is idempotent. -/
theorem task_lifecycle_amended (t : TaskFields) (es : List TaskEvent)
    (u : TaskStatusUpdate)
    (h0 : t.has_ended = true → t.has_started = true)
    (h1 : runningSeenFirst t.task_id es = true) :
    ((applyEvents t es).has_ended = true → (applyEvents t es).has_started = true) ∧
    (t.task_id = u.task_id →
      ((JobExecutionTask.complete t u).1.has_ended = true ∧
       (JobExecutionTask.complete t u).1.ended = some u.timestamp ∧
       (JobExecutionTask.complete t u).1.exit_code = u.exit_code ∧
       (JobExecutionTask.complete t u).1.last_status_update = some u.timestamp)) ∧
    (JobExecutionTask.complete (JobExecutionTask.complete t u).1 u).1 =
      (JobExecutionTask.complete t u).1 := by
  refine ⟨runningSeenFirst_invariant es t h0 h1, ?_, ?_⟩
  · intro hm
    simp [JobExecutionTask.complete, hm]
  · by_cases hm : t.task_id = u.task_id
    · simp [JobExecutionTask.complete, hm]
    · simp [JobExecutionTask.complete, hm]

/-- Witness for C9 (amended): a RUNNING update followed by a matching
completion leaves the fresh job task started and ended, and a repeated
completion changes nothing. -/
theorem task_lifecycle_amended_witness :
    ((applyEvents freshJobTask [TaskEvent.upd jobRunUpdate,
        TaskEvent.compl jobDoneUpdate]).has_started = true) ∧
    (JobExecutionTask.complete (JobExecutionTask.complete freshJobTask jobDoneUpdate).1
        jobDoneUpdate).1 = (JobExecutionTask.complete freshJobTask jobDoneUpdate).1 := by
  have h := task_lifecycle_amended freshJobTask
    [TaskEvent.upd jobRunUpdate, TaskEvent.compl jobDoneUpdate] jobDoneUpdate
    (by decide) (by decide)
  exact ⟨h.1 (by decide), h.2.2⟩

/-- C4: for a registered execution whose durable row exists: a CANCELED row
invokes `execution_canceled` (its durable checkpoint appears in the trace),
otherwise a timed-out row invokes `execution_timed_out`; a `DatabaseError`
from either call leaves the execution untouched and iteration continues;
whenever the call returned a task, a KillTask for that task's id is
dispatched; and an execution that is then finished leaves the registry and
is handed to the cleanup manager. -/
theorem sync_one_cases (env : SyncEnv) (s : RunningJobExecution) (row : SyncRow)
    (hrow : env.row s.id = some row) :
    (row.status = "CANCELED" → env.db_error s.id = false →
      syncOne env s =
        (none,
          (s.execution_canceled).2.2
            ++ (match s.current_task with
                | some t => [Effect.killTask t.task_id]
                | none => [])
            ++ [Effect.removeJobExe s.id, Effect.addToCleanup s.id])) ∧
    (row.status ≠ "CANCELED" → row.timed_out = true → env.db_error s.id = false →
      syncOne env s =
        (none,
          (s.execution_timed_out env.catalog env.right_now).2.2
            ++ (match s.current_task with
                | some t => [Effect.killTask t.task_id]
                | none => [])
            ++ [Effect.removeJobExe s.id, Effect.addToCleanup s.id])) ∧
    ((row.status = "CANCELED" ∨ row.timed_out = true) → env.db_error s.id = true →
      syncOne env s =
        (if s.is_finished then
          (none, [Effect.removeJobExe s.id, Effect.addToCleanup s.id])
         else (some s, []))) ∧
    (row.status ≠ "CANCELED" → row.timed_out = false →
      syncOne env s =
        (if s.is_finished then
          (none, [Effect.removeJobExe s.id, Effect.addToCleanup s.id])
         else (some s, []))) := by
  refine ⟨?_, ?_, ?_, ?_⟩
  · intro hc hd
    simp [syncOne, hrow, hc, hd, RunningJobExecution.execution_canceled,
      RunningJobExecution.is_finished]
  · intro hc ht hd
    simp [syncOne, hrow, hc, ht, hd, RunningJobExecution.execution_timed_out,
      RunningJobExecution.is_finished]
  · rintro (hc | ht) hd
    · simp [syncOne, hrow, hc, hd]
    · by_cases hc : row.status = "CANCELED" <;>
        simp [syncOne, hrow, hc, ht, hd]
  · intro hc ht
    simp [syncOne, hrow, hc, ht]

/-- The sync environment of the C4 witness: the concrete execution's row is
CANCELED and the durable layer raises no error. -/
def cancelEnv : SyncEnv :=
  { catalog := testCatalog, right_now := 50,
    row := fun i => if i = 7 then some { status := "CANCELED", timed_out := false } else none,
    db_error := fun _ => false }

/-- Witness for C4: the canceled concrete execution is checkpointed, its
current task killed, and it is removed from the registry and handed to the
cleanup manager. -/
theorem sync_one_cases_witness :
    syncOne cancelEnv startedExe =
      (none, [Effect.saveJobExe 7 startedExe.all_tasks, Effect.killTask "scale_pre_7",
              Effect.removeJobExe 7, Effect.addToCleanup 7]) := by
  have h := (sync_one_cases cancelEnv startedExe
    { status := "CANCELED", timed_out := false } (by decide)).1 rfl rfl
  rw [h]
  decide

end Scale
